import Mathlib

/- Shallow embedding of the drag-and-drop mutation resolution engine
   (src/mutators/BinaryMutator.ts) of the gg revision-graph UI.

   Modelling conventions:
   * TypeScript string-keyed record types become Lean structures; only the
     fields the engine reads are carried (display-only fields such as
     description, author and branch lists are inert for this component).
   * JavaScript object identity (the `==` between two objects, used by the
     source for self-drop detection) is modelled by a `ref : Nat` tag carried
     on each header and operand object.  Two objects are `==` in JavaScript
     exactly when they are the same heap object, which corresponds here to
     equal `ref` tags; distinct renders of the same entity get distinct tags
     even when every value field coincides.
   * Out-of-bounds array indexing yields `undefined` in JavaScript; the one
     such read (`parent_ids[0]` in the copy-changes branch) is modelled with
     `List.head?`, and the request field that receives it is an `Option`.
   * Each call to `mutate` is modelled as emitting one request; `doDrop`
     returns the list of requests emitted during the invocation, so the
     final `console.log` fallthrough emits the empty list. -/

structure ChangeId where
  hex : String
deriving DecidableEq, Repr

structure CommitId where
  hex : String
deriving DecidableEq, Repr

structure RevId where
  change : ChangeId
  commit : CommitId
deriving DecidableEq, Repr

structure TreePath where
  relative_path : String
deriving DecidableEq, Repr

/-- Snapshot of a revision as rendered (messages/RevHeader).  `ref` is the
JavaScript object-identity tag described in the header comment. -/
structure RevHeader where
  ref : Nat
  id : RevId
  parent_ids : List CommitId
  is_immutable : Bool
  is_working_copy : Bool
  has_conflict : Bool
deriving DecidableEq, Repr

/-- messages/RefName: a branch name plus variant; remote variants carry the
remote name and sync/tracking flags. -/
inductive RefName where
  | LocalBranch (branch_name : String)
  | RemoteBranch (branch_name : String) (remote_name : String)
      (is_synced : Bool) (is_tracked : Bool)
deriving DecidableEq, Repr

def RefName.branch_name : RefName → String
  | RefName.LocalBranch n => n
  | RefName.RemoteBranch n _ _ _ => n

/-- Mirrors the source test `name.type == "RemoteBranch"`. -/
def RefName.isRemoteVariant : RefName → Bool
  | RefName.RemoteBranch _ _ _ _ => true
  | RefName.LocalBranch _ => false

/-- messages/Operand: the closed six-variant algebra the engine reasons
about. -/
inductive Operand where
  | Repository
  | Revision (header : RevHeader)
  | Merge (header : RevHeader)
  | Parent (header : RevHeader) (child : RevHeader)
  | Change (header : RevHeader) (path : TreePath)
  | Branch (header : RevHeader) (name : RefName)
deriving DecidableEq, Repr

/-- The `type` discriminant string of an Operand. -/
inductive OperandType where
  | Repository | Revision | Merge | Parent | Change | Branch
deriving DecidableEq, Repr

def Operand.otype : Operand → OperandType
  | Operand.Repository => OperandType.Repository
  | Operand.Revision _ => OperandType.Revision
  | Operand.Merge _ => OperandType.Merge
  | Operand.Parent _ _ => OperandType.Parent
  | Operand.Change _ _ => OperandType.Change
  | Operand.Branch _ _ => OperandType.Branch

/-- An operand as a heap object: the constructor argument objects created at
render time carry an identity tag, compared by the source at canDrop line 62
(`this.#from == this.#to`). -/
structure OperandObj where
  ref : Nat
  val : Operand
deriving DecidableEq, Repr

/-- One element of a RichHint: `(string | ChangeId | CommitId)[]`.  `undef`
is the JavaScript `undefined` produced by an out-of-bounds index. -/
inductive RichHintPart where
  | str (s : String)
  | change (id : ChangeId)
  | commit (id : CommitId)
  | undef
deriving DecidableEq, Repr

abbrev RichHint := List RichHintPart

/-- `{ type: "yes", hint } | { type: "maybe", hint } | { type: "no" }`. -/
inductive Eligibility where
  | yes (hint : RichHint)
  | maybe (hint : String)
  | no
deriving DecidableEq, Repr

def Eligibility.isYes : Eligibility → Bool
  | Eligibility.yes _ => true
  | _ => false

def Eligibility.isMaybe : Eligibility → Bool
  | Eligibility.maybe _ => true
  | _ => false

def Eligibility.isNo : Eligibility → Bool
  | Eligibility.no => true
  | _ => false

/-- Result of wrapping an optional CommitId into a hint element, as the
source splices `parent_ids[0]` straight into a hint array. -/
def RichHintPart.ofCommitIdx : Option CommitId → RichHintPart
  | some c => RichHintPart.commit c
  | none => RichHintPart.undef

/-- BinaryMutator.canDrag.  The source is a linear if-chain whose guards each
test `from.type` first, so no two guards of different variants can both
fire; it is rendered here as one match with the per-variant guards kept in
source order (immutability before single-parent for Parent). -/
def canDrag (a : Operand) : Eligibility :=
  match a with
  | Operand.Revision header =>
      if header.is_immutable then Eligibility.maybe "(revision is immutable)"
      else Eligibility.yes
        [RichHintPart.str "Rebasing revision ", RichHintPart.change header.id.change]
  | Operand.Change header path =>
      if header.is_immutable then Eligibility.maybe "(revision is immutable)"
      else Eligibility.yes
        [RichHintPart.str ("Squashing changes at " ++ path.relative_path)]
  | Operand.Parent _header child =>
      if child.is_immutable then Eligibility.maybe "(child is immutable)"
      else if child.parent_ids.length == 1 then
        Eligibility.maybe "(child has only one parent)"
      else Eligibility.yes
        [RichHintPart.str "Removing parent from revision ", RichHintPart.change child.id.change]
  | Operand.Branch _header name =>
      if name.isRemoteVariant then Eligibility.maybe "(branch is remote)"
      else Eligibility.yes
        [RichHintPart.str ("Moving branch " ++ name.branch_name)]
  | Operand.Repository => Eligibility.no
  | Operand.Merge _ => Eligibility.no

/-- BinaryMutator.canDrop (lines 58-121).  The two generic gates come first,
exactly as in the source: the drag gate with its Revision-onto-Merge
exception, then the self-drop reference-equality check; the pairwise table
follows, with fall-through to `no`. -/
def canDrop (a b : OperandObj) : Eligibility :=
  if !(canDrag a.val).isYes
      && !(a.val.otype == OperandType.Revision && b.val.otype == OperandType.Merge) then
    Eligibility.no
  else if a.ref == b.ref then
    Eligibility.no
  else
    match a.val, b.val with
    | Operand.Revision h, Operand.Revision h2 =>
        Eligibility.yes
          [RichHintPart.str "Rebasing revision ", RichHintPart.change h.id.change,
           RichHintPart.str " onto ", RichHintPart.change h2.id.change]
    | Operand.Revision h, Operand.Parent _z c =>
        if c.ref == h.ref then Eligibility.no
        else if c.is_immutable then
          Eligibility.maybe "(can\x27t insert before an immutable revision)"
        else
          Eligibility.yes
            [RichHintPart.str "Inserting revision ", RichHintPart.change h.id.change,
             RichHintPart.str " before ", RichHintPart.change c.id.change]
    | Operand.Revision h, Operand.Merge h2 =>
        if h2.id.change.hex == h.id.change.hex then Eligibility.no
        else
          Eligibility.yes
            [RichHintPart.str "Adding parent to revision ", RichHintPart.change h2.id.change]
    | Operand.Revision h, Operand.Repository =>
        Eligibility.yes
          [RichHintPart.str "Abandoning commit ", RichHintPart.commit h.id.commit]
    | Operand.Parent _z c, Operand.Repository =>
        Eligibility.yes
          [RichHintPart.str "Removing parent from revision ", RichHintPart.change c.id.change]
    | Operand.Change h p, Operand.Revision h2 =>
        if h2.id.change.hex == h.id.change.hex then Eligibility.no
        else if h2.is_immutable then Eligibility.maybe "(revision is immutable)"
        else
          Eligibility.yes
            [RichHintPart.str ("Squashing changes at " ++ p.relative_path ++ " into "),
             RichHintPart.change h2.id.change]
    | Operand.Change h p, Operand.Repository =>
        if h.parent_ids.length == 1 then
          Eligibility.yes
            [RichHintPart.str ("Restoring changes at " ++ p.relative_path ++ " from parent "),
             RichHintPart.ofCommitIdx h.parent_ids.head?]
        else Eligibility.maybe "Can\x27t restore: revision has multiple parents."
    | Operand.Branch _h n, Operand.Revision h2 =>
        Eligibility.yes
          [RichHintPart.str ("Moving branch " ++ n.branch_name ++ " to "),
           RichHintPart.change h2.id.change]
    | Operand.Branch _h n, Operand.Branch _h2 n2 =>
        if n.branch_name == n2.branch_name then
          Eligibility.yes
            [RichHintPart.str ("Resetting branch " ++ n.branch_name ++ " to remote")]
        else Eligibility.no
    | _, _ => Eligibility.no

/-- One backend mutation request, command name and payload (messages/*). -/
inductive MutateRequest where
  | move_revision (id : RevId) (parent_ids : List RevId)
  | insert_revision (id : RevId) (after_id : RevId) (before_id : RevId)
  | move_source (id : RevId) (parent_ids : List CommitId)
  | abandon_revisions (ids : List CommitId)
  | move_changes (from_id : RevId) (to_id : CommitId) (paths : List TreePath)
  | copy_changes (from_id : Option CommitId) (to_id : RevId) (paths : List TreePath)
  | move_branch (to_id : RevId) (name : RefName)
deriving DecidableEq, Repr

/-- BinaryMutator.doDrop (lines 123-178): the dispatcher.  Each guarded block
returns after one `mutate`, and an unmatched pair falls through to the
logging statement, emitting nothing.  Reference tags play no role here: the
dispatcher reads value fields only. -/
def doDrop (a b : Operand) : List MutateRequest :=
  match a, b with
  | Operand.Revision h, Operand.Revision h2 =>
      [MutateRequest.move_revision h.id [h2.id]]
  | Operand.Revision h, Operand.Parent z c =>
      [MutateRequest.insert_revision h.id z.id c.id]
  | Operand.Revision h, Operand.Merge h2 =>
      [MutateRequest.move_source h2.id (h2.parent_ids ++ [h.id.commit])]
  | Operand.Revision h, Operand.Repository =>
      [MutateRequest.abandon_revisions [h.id.commit]]
  | Operand.Parent z c, Operand.Repository =>
      [MutateRequest.move_source c.id
        (c.parent_ids.filter (fun pid => pid.hex != z.id.commit.hex))]
  | Operand.Change h p, Operand.Revision h2 =>
      [MutateRequest.move_changes h.id h2.id.commit [p]]
  | Operand.Change h p, Operand.Repository =>
      [MutateRequest.copy_changes h.parent_ids.head? h.id [p]]
  | Operand.Branch _h n, Operand.Revision h2 =>
      [MutateRequest.move_branch h2.id n]
  | Operand.Branch _h n, Operand.Branch h2 _n2 =>
      [MutateRequest.move_branch h2.id n]
  | _, _ => []

/-- Modelled from the spec: the drop-gesture handler (the Zone component,
whose source is not included) "recomputes (or is invoked only after) a `yes`
classification for the pair and issues exactly one backend mutation request"
(section 4.3), so the dispatcher runs only on pairs canDrop classified yes. -/
def submitDrop (a b : OperandObj) : List MutateRequest :=
  if (canDrop a b).isYes then doDrop a.val b.val else []

/- Sample headers used by witnesses and counterexamples.  `exMut` and
`exRender2` carry identical value fields but distinct reference tags: two
renders of the same logical entity. -/

def exMut : RevHeader := ⟨10, ⟨⟨"aa"⟩, ⟨"c1"⟩⟩, [⟨"p1"⟩], false, false, false⟩

def exMut2 : RevHeader := ⟨11, ⟨⟨"bb"⟩, ⟨"c2"⟩⟩, [⟨"p1"⟩], false, false, false⟩

def exImm : RevHeader := ⟨12, ⟨⟨"dd"⟩, ⟨"c3"⟩⟩, [⟨"p1"⟩], true, false, false⟩

def exRender2 : RevHeader := ⟨13, ⟨⟨"aa"⟩, ⟨"c1"⟩⟩, [⟨"p1"⟩], false, false, false⟩

def exChild3 : RevHeader :=
  ⟨14, ⟨⟨"ee"⟩, ⟨"c4"⟩⟩, [⟨"c1"⟩, ⟨"x1"⟩, ⟨"x2"⟩], false, false, false⟩

def exChildImm1 : RevHeader := ⟨15, ⟨⟨"ff"⟩, ⟨"c5"⟩⟩, [⟨"c1"⟩], true, false, false⟩

def exPath : TreePath := ⟨"f.txt"⟩

/-- Every doDrop path calls `mutate` at most once before returning. -/
theorem doDrop_length_le_one (a b : Operand) : (doDrop a b).length ≤ 1 := by
  cases a <;> cases b <;> simp [doDrop]

/-- C1: the claim says canDrop returns `no` whenever the two operands denote
the same logical entity (equal identity pairs), including two distinct
objects from different renders.  The code compares by object reference only:
on two renders of the same revision (equal identity pair, distinct reference
tags) it classifies the pair `yes`, offering to rebase a revision onto
itself. -/
theorem c1_same_entity_reference_equality_bug :
    exMut.id = exRender2.id ∧
    canDrop ⟨0, Operand.Revision exMut⟩ ⟨1, Operand.Revision exRender2⟩ =
      Eligibility.yes
        [RichHintPart.str "Rebasing revision ", RichHintPart.change exMut.id.change,
         RichHintPart.str " onto ", RichHintPart.change exRender2.id.change] := by
  exact ⟨rfl, rfl⟩

/-- A pair classified yes by canDrop always has a dispatcher row: doDrop
emits exactly one request on it. -/
theorem canDrop_yes_doDrop_singleton (a b : OperandObj)
    (h : (canDrop a b).isYes = true) : (doDrop a.val b.val).length = 1 := by
  obtain ⟨ra, va⟩ := a
  obtain ⟨rb, vb⟩ := b
  cases va <;> cases vb <;>
    simp_all only [canDrop, canDrag, doDrop, Operand.otype, Eligibility.isYes,
      List.length_cons, List.length_nil] <;>
    split_ifs at h

/-- C2: the gesture-level dispatcher submitDrop issues a backend mutation
request if and only if canDrop classifies the pair yes, and it issues at
most one request per invocation. -/
theorem c2_submitDrop_iff_canDrop_yes (a b : OperandObj) :
    (submitDrop a b).length ≤ 1 ∧
      (submitDrop a b ≠ [] ↔ (canDrop a b).isYes = true) := by
  unfold submitDrop
  by_cases h : (canDrop a b).isYes = true
  · have h1 := canDrop_yes_doDrop_singleton a b h
    simp only [h, if_pos]
    constructor
    · omega
    · simp [h, ← List.length_pos_iff_ne_nil, h1]
  · simp [h]

/-- C3: a Revision dropped onto a Merge with a different change-id hex is
classified yes even when canDrag on the source is not yes (the drag gate has
an explicit Revision-onto-Merge exception), and the dispatcher emits exactly
one move_source request whose parent list is the target parents with the
source commit appended at the end. -/
theorem c3_revision_onto_merge (ra rb : Nat) (h h2 : RevHeader)
    (hex_ne : h2.id.change.hex ≠ h.id.change.hex) (ref_ne : ra ≠ rb) :
    canDrop ⟨ra, Operand.Revision h⟩ ⟨rb, Operand.Merge h2⟩ =
      Eligibility.yes
        [RichHintPart.str "Adding parent to revision ", RichHintPart.change h2.id.change] ∧
    doDrop (Operand.Revision h) (Operand.Merge h2) =
      [MutateRequest.move_source h2.id (h2.parent_ids ++ [h.id.commit])] := by
  refine ⟨?_, rfl⟩
  simp [canDrop, Operand.otype, ref_ne, hex_ne]

/-- Witness for C3 at a concrete input: the source revision is immutable, so
canDrag is not yes, yet the drop is classified yes and one request is
emitted. -/
theorem c3_revision_onto_merge_witness :
    (canDrag (Operand.Revision exImm)).isYes = false ∧
    (canDrop ⟨0, Operand.Revision exImm⟩ ⟨1, Operand.Merge exMut⟩ =
      Eligibility.yes
        [RichHintPart.str "Adding parent to revision ", RichHintPart.change exMut.id.change] ∧
    doDrop (Operand.Revision exImm) (Operand.Merge exMut) =
      [MutateRequest.move_source exMut.id (exMut.parent_ids ++ [exImm.id.commit])]) :=
  ⟨by decide, c3_revision_onto_merge 0 1 exImm exMut (by decide) (by decide)⟩

/-- C4 counterexample: an immutable Change whose header has exactly one
parent, dropped on Repository, is classified no (the drag gate rejects the
immutable source), though the claim as stated demands yes whenever the
parent count is one. -/
theorem c4_counterexample :
    exImm.parent_ids.length = 1 ∧
    canDrop ⟨0, Operand.Change exImm exPath⟩ ⟨1, Operand.Repository⟩ = Eligibility.no := by
  exact ⟨rfl, rfl⟩

/-- C4 amended: for a distinct Change/Repository pair, canDrop is yes iff
the header is not immutable (drag gate) and has exactly one parent; and when
the parent count is not one, the gated dispatcher issues no request at
all. -/
theorem c4_change_repository_amended (ra rb : Nat) (h : RevHeader) (p : TreePath)
    (ref_ne : ra ≠ rb) :
    ((canDrop ⟨ra, Operand.Change h p⟩ ⟨rb, Operand.Repository⟩).isYes = true ↔
      (h.is_immutable = false ∧ h.parent_ids.length = 1)) ∧
    (h.parent_ids.length ≠ 1 →
      submitDrop ⟨ra, Operand.Change h p⟩ ⟨rb, Operand.Repository⟩ = []) := by
  have hdrop : canDrop ⟨ra, Operand.Change h p⟩ ⟨rb, Operand.Repository⟩ =
      if h.is_immutable then Eligibility.no
      else if h.parent_ids.length == 1 then
        Eligibility.yes
          [RichHintPart.str ("Restoring changes at " ++ p.relative_path ++ " from parent "),
           RichHintPart.ofCommitIdx h.parent_ids.head?]
      else Eligibility.maybe "Can\x27t restore: revision has multiple parents." := by
    by_cases him : h.is_immutable <;>
      simp [canDrop, canDrag, Operand.otype, Eligibility.isYes, ref_ne, him]
  constructor
  · rw [hdrop]
    by_cases him : h.is_immutable <;> by_cases hlen : h.parent_ids.length = 1 <;>
      simp [him, hlen, Eligibility.isYes]
  · intro hlen
    unfold submitDrop
    rw [hdrop]
    by_cases him : h.is_immutable <;> simp [him, hlen, Eligibility.isYes]

/-- Witness for C4 amended at a concrete input: a mutable single-parent
Change on Repository is classified yes. -/
theorem c4_change_repository_amended_witness :
    ((canDrop ⟨0, Operand.Change exMut exPath⟩ ⟨1, Operand.Repository⟩).isYes = true ↔
      (exMut.is_immutable = false ∧ exMut.parent_ids.length = 1)) ∧
    (exMut.parent_ids.length ≠ 1 →
      submitDrop ⟨0, Operand.Change exMut exPath⟩ ⟨1, Operand.Repository⟩ = []) :=
  c4_change_repository_amended 0 1 exMut exPath (by decide)

/-- C5 counterexample: an immutable Revision dropped on a Parent whose child
is mutable and a different entity is classified no (drag gate), though the
claim as stated demands yes there; moreover the same-entity comparison the
claim relies on is by object reference, not identity value. -/
theorem c5_counterexample :
    exMut2.is_immutable = false ∧
    exMut2.id.change.hex ≠ exImm.id.change.hex ∧
    canDrop ⟨0, Operand.Revision exImm⟩ ⟨1, Operand.Parent exMut exMut2⟩ =
      Eligibility.no := by
  exact ⟨rfl, by decide, rfl⟩

/-- C5 amended: for a Revision source whose header is not immutable (so the
drag gate passes) and a distinct Parent target, canDrop returns no when the
child is the same header object as the source header (reference equality,
so value-equal snapshots from different renders are not caught), else maybe
exactly when the child is immutable, else yes. -/
theorem c5_revision_parent_amended (ra rb : Nat) (h z c : RevHeader)
    (h_mut : h.is_immutable = false) (ref_ne : ra ≠ rb) :
    canDrop ⟨ra, Operand.Revision h⟩ ⟨rb, Operand.Parent z c⟩ =
      if c.ref = h.ref then Eligibility.no
      else if c.is_immutable then
        Eligibility.maybe "(can\x27t insert before an immutable revision)"
      else
        Eligibility.yes
          [RichHintPart.str "Inserting revision ", RichHintPart.change h.id.change,
           RichHintPart.str " before ", RichHintPart.change c.id.change] := by
  simp [canDrop, canDrag, Operand.otype, Eligibility.isYes, ref_ne, h_mut]

/-- Witness for C5 amended at a concrete input: a mutable Revision on a
Parent with a distinct mutable child is classified yes. -/
theorem c5_revision_parent_amended_witness :
    canDrop ⟨0, Operand.Revision exMut⟩ ⟨1, Operand.Parent exMut2 exChild3⟩ =
      if exChild3.ref = exMut.ref then Eligibility.no
      else if exChild3.is_immutable then
        Eligibility.maybe "(can\x27t insert before an immutable revision)"
      else
        Eligibility.yes
          [RichHintPart.str "Inserting revision ", RichHintPart.change exMut.id.change,
           RichHintPart.str " before ", RichHintPart.change exChild3.id.change] :=
  c5_revision_parent_amended 0 1 exMut exMut2 exChild3 (by decide) (by decide)

/-- C6 counterexample: a remote-variant Branch dropped on a Branch of the
same name is classified no (the drag gate rejects remote branches), though
the claim as stated demands yes whenever the names agree. -/
theorem c6_counterexample :
    (RefName.RemoteBranch "main" "origin" true true).branch_name =
      (RefName.LocalBranch "main").branch_name ∧
    canDrop ⟨0, Operand.Branch exMut (RefName.RemoteBranch "main" "origin" true true)⟩
            ⟨1, Operand.Branch exMut2 (RefName.LocalBranch "main")⟩ = Eligibility.no := by
  exact ⟨rfl, rfl⟩

/-- C6 amended: for a local-variant Branch source (drag gate passes) and a
distinct Branch target, canDrop is yes exactly when the two branch names
agree, and no otherwise. -/
theorem c6_branch_branch_amended (ra rb : Nat) (h1 h2 : RevHeader) (bn : String)
    (n2 : RefName) (ref_ne : ra ≠ rb) :
    canDrop ⟨ra, Operand.Branch h1 (RefName.LocalBranch bn)⟩
            ⟨rb, Operand.Branch h2 n2⟩ =
      if bn = n2.branch_name then
        Eligibility.yes [RichHintPart.str ("Resetting branch " ++ bn ++ " to remote")]
      else Eligibility.no := by
  simp [canDrop, canDrag, Operand.otype, Eligibility.isYes, RefName.isRemoteVariant,
    RefName.branch_name, ref_ne]

/-- Witness for C6 amended at a concrete input: the local branch "main" on
its remote counterpart entry of the same name is classified yes. -/
theorem c6_branch_branch_amended_witness :
    canDrop ⟨0, Operand.Branch exMut (RefName.LocalBranch "main")⟩
            ⟨1, Operand.Branch exMut2 (RefName.RemoteBranch "main" "origin" true true)⟩ =
      if "main" = (RefName.RemoteBranch "main" "origin" true true).branch_name then
        Eligibility.yes [RichHintPart.str ("Resetting branch " ++ "main" ++ " to remote")]
      else Eligibility.no :=
  c6_branch_branch_amended 0 1 exMut exMut2 "main"
    (RefName.RemoteBranch "main" "origin" true true) (by decide)

/-- C7: a Parent edge whose child is mutable and has at least two parents,
dropped on Repository, is classified yes, and the dispatcher emits exactly
one move_source request addressed to the child whose parent list is the
child parents with every entry matching the removed parent commit hex
dropped, order preserved (stated via Sublist plus a membership
characterisation). -/
theorem c7_parent_repository (ra rb : Nat) (z c : RevHeader)
    (c_mut : c.is_immutable = false) (two_parents : 2 ≤ c.parent_ids.length)
    (ref_ne : ra ≠ rb) :
    canDrop ⟨ra, Operand.Parent z c⟩ ⟨rb, Operand.Repository⟩ =
      Eligibility.yes
        [RichHintPart.str "Removing parent from revision ",
         RichHintPart.change c.id.change] ∧
    ∃ remaining,
      doDrop (Operand.Parent z c) Operand.Repository =
        [MutateRequest.move_source c.id remaining] ∧
      remaining.Sublist c.parent_ids ∧
      ∀ x, x ∈ remaining ↔ (x ∈ c.parent_ids ∧ x.hex ≠ z.id.commit.hex) := by
  have hlen : ¬(c.parent_ids.length = 1) := by omega
  refine ⟨?_, ?_⟩
  · simp [canDrop, canDrag, Operand.otype, Eligibility.isYes, ref_ne, c_mut, hlen]
  · refine ⟨c.parent_ids.filter (fun pid => pid.hex != z.id.commit.hex), rfl,
      List.filter_sublist _, ?_⟩
    intro x
    simp [List.mem_filter]

/-- Witness for C7 at a concrete input: a three-parent mutable child; the
emitted parent list drops the removed parent commit. -/
theorem c7_parent_repository_witness :
    exChild3.is_immutable = false ∧ 2 ≤ exChild3.parent_ids.length ∧
    (canDrop ⟨0, Operand.Parent exMut exChild3⟩ ⟨1, Operand.Repository⟩ =
      Eligibility.yes
        [RichHintPart.str "Removing parent from revision ",
         RichHintPart.change exChild3.id.change] ∧
    ∃ remaining,
      doDrop (Operand.Parent exMut exChild3) Operand.Repository =
        [MutateRequest.move_source exChild3.id remaining] ∧
      remaining.Sublist exChild3.parent_ids ∧
      ∀ x, x ∈ remaining ↔ (x ∈ exChild3.parent_ids ∧ x.hex ≠ exMut.id.commit.hex)) :=
  ⟨by decide, by decide,
    c7_parent_repository 0 1 exMut exChild3 (by decide) (by decide) (by decide)⟩

/-- C8: canDrag is total, yielding exactly one of the three classifications
on every operand, and it yields no precisely on the Repository and Merge
variants. -/
theorem c8_canDrag_total_no_iff (a : Operand) :
    ((canDrag a).isYes || (canDrag a).isMaybe || (canDrag a).isNo) = true ∧
    (canDrag a = Eligibility.no ↔
      (a = Operand.Repository ∨ ∃ h, a = Operand.Merge h)) := by
  cases a <;>
    simp [canDrag, Eligibility.isYes, Eligibility.isMaybe, Eligibility.isNo] <;>
    split_ifs <;> simp

/-- C9: for a Parent operand whose child is immutable and also has exactly
one parent, the immutability check fires first: canDrag returns maybe with
hint "(child is immutable)". -/
theorem c9_child_immutable_precedence (z c : RevHeader)
    (c_imm : c.is_immutable = true) (_one_parent : c.parent_ids.length = 1) :
    canDrag (Operand.Parent z c) = Eligibility.maybe "(child is immutable)" := by
  simp [canDrag, c_imm]

/-- Witness for C9 at a concrete input: an immutable single-parent child. -/
theorem c9_child_immutable_precedence_witness :
    exChildImm1.is_immutable = true ∧ exChildImm1.parent_ids.length = 1 ∧
    canDrag (Operand.Parent exMut exChildImm1) =
      Eligibility.maybe "(child is immutable)" :=
  ⟨by decide, by decide,
    c9_child_immutable_precedence exMut exChildImm1 (by decide) (by decide)⟩

/-- C10: dropping a Change on Repository reads `parent_ids[0]` with no
length guard; whenever the parent list is non-empty (in particular whenever
canDrop classified the pair yes, which forces length one) the read is in
bounds and the emitted copy_changes request carries a defined from_id. -/
theorem c10_copy_changes_defined_from_id (h : RevHeader) (p : TreePath)
    (nonempty : h.parent_ids ≠ []) :
    ∃ c0, h.parent_ids.head? = some c0 ∧
      doDrop (Operand.Change h p) Operand.Repository =
        [MutateRequest.copy_changes (some c0) h.id [p]] := by
  cases hp : h.parent_ids with
  | nil => exact absurd hp nonempty
  | cons c0 rest => exact ⟨c0, by simp [hp], by simp [doDrop, hp]⟩

/-- Witness for C10 at a concrete input: a single-parent header yields a
defined from_id. -/
theorem c10_copy_changes_defined_from_id_witness :
    exMut.parent_ids ≠ [] ∧
    ∃ c0, exMut.parent_ids.head? = some c0 ∧
      doDrop (Operand.Change exMut exPath) Operand.Repository =
        [MutateRequest.copy_changes (some c0) exMut.id [exPath]] :=
  ⟨by decide, c10_copy_changes_defined_from_id exMut exPath (by decide)⟩
